import Mathlib

/-!
Verification development for the shulkers api-fetcher repository.

The definitions below are a shallow embedding of the TypeScript sources:
  - the vendored ky HTTP core (dist/esm/index.js): retry-delay computation,
    retry loop, timeout handling, default options;
  - the BaseAPIClient construction and request option plumbing;
  - the three per-service error mappers (spiget.ts, modrinth.ts, hangar.ts);
  - the Modrinth facet model, builder and serialization (modrinthType.ts,
    modrinth.ts), together with an executable JSON serializer and a JSON
    parser for the array-of-arrays-of-strings sublanguage that the facet
    wire format lives in.

JavaScript numbers are modelled as Int where the code only ever deals in
integral millisecond values; machine-level float behaviour is not relied
on by any statement below.
-/

namespace ApiFetcher

/-! ### The ky retry core (dist/esm/index.js, class Ky) -/

/-- Parse outcomes for the value of the retry-hint header that the code reads
(the first present among Retry-After, RateLimit-Reset, X-RateLimit-Reset,
X-Rate-Limit-Reset).  `asNumber = some n` models `Number(value) = n`
(an integral value), `asNumber = none` models `Number.isNaN(Number(value))`,
in which case `asDate` models `Date.parse(value)`. -/
structure RetryHeader where
  asNumber : Option Int
  asDate : Int
  deriving Repr, DecidableEq

/-- The failures the ky core distinguishes in `_calculateRetryDelay`:
`TimeoutError`, `HTTPError` (carrying the response status and the resolved
retry-hint header, `none` when absent or empty), and any other error. -/
inductive KyFailure where
  | timeout
  | http (status : Nat) (retryHint : Option RetryHeader)
  | other
  deriving Repr, DecidableEq

/-- ky retry options (normalizeRetryOptions).  `maxRetryAfter = none` and
`backoffLimit = none` model `Number.POSITIVE_INFINITY` (the defaults), so the
corresponding `Math.min`/clamp is the identity in that case. -/
structure RetryOptions where
  limit : Nat
  methods : List String
  statusCodes : List Nat
  afterStatusCodes : List Nat
  maxRetryAfter : Option Int
  backoffLimit : Option Int
  delay : Nat → Int

/-- `Date.parse("2024-01-01")` : the fixed epoch sanity threshold in ms. -/
def epochThreshold : Int := 1704067200000

/-- defaultRetryOptions from dist/esm/index.js. -/
def defaultRetryOptions : RetryOptions where
  limit := 2
  methods := ["get", "put", "head", "delete", "options", "trace"]
  statusCodes := [408, 413, 429, 500, 502, 503, 504]
  afterStatusCodes := [413, 429, 503]
  maxRetryAfter := none
  backoffLimit := none
  delay := fun attemptCount => 300 * 2 ^ (attemptCount - 1)

/-- The header branch of `_calculateRetryDelay`:
`after = Number(retryAfter) * 1000; if NaN, after = Date.parse(retryAfter) - now;
else if after >= Date.parse("2024-01-01"), after -= now;
max = maxRetryAfter ?? after; return after < max ? after : max`. -/
def retryAfterWait (opts : RetryOptions) (h : RetryHeader) (now : Int) : Int :=
  let after : Int :=
    match h.asNumber with
    | some n =>
        if n * 1000 ≥ epochThreshold then n * 1000 - now else n * 1000
    | none => h.asDate - now
  let max := opts.maxRetryAfter.getD after
  if after < max then after else max

/-- The generic backoff tail of `_calculateRetryDelay`:
`Math.min(backoffLimit, retry.delay(retryCount))`. -/
def backoffWait (opts : RetryOptions) (retryCount : Nat) : Int :=
  match opts.backoffLimit with
  | some b => min b (opts.delay retryCount)
  | none => opts.delay retryCount

/-- `Ky._calculateRetryDelay` with the `this._retryCount++` already applied:
`retryCount` is the incremented counter.  `none` models throwing the error
(no retry: the failure propagates), `some d` models returning the delay `d`
before the next attempt. -/
def calculateRetryDelay (opts : RetryOptions) (retryCount : Nat)
    (err : KyFailure) (now : Int) : Option Int :=
  if retryCount > opts.limit then none
  else
    match err with
    | .timeout => none
    | .http status retryHint =>
        if status ∈ opts.statusCodes then
          match retryHint with
          | some h =>
              if status ∈ opts.afterStatusCodes then
                some (retryAfterWait opts h now)
              else if status = 413 then none
              else some (backoffWait opts retryCount)
          | none =>
              if status = 413 then none
              else some (backoffWait opts retryCount)
        else none
    | .other => some (backoffWait opts retryCount)

/-- `Ky._retry`: run an attempt; on failure consult `_calculateRetryDelay`;
propagate when it throws, otherwise wait and recurse.  `attempt i` is the
outcome of the request issued while `_retryCount = i`.  Returns the final
outcome together with the number of underlying requests issued.  `fuel`
bounds the recursion; with `fuel ≥ opts.limit` it is never exhausted since
the delay computation refuses once the counter passes the limit. -/
def kyRetryGo (opts : RetryOptions) (now : Int)
    (attempt : Nat → Except KyFailure α) :
    Nat → Nat → Except KyFailure α × Nat
  | retryCount, 0 =>
    match attempt retryCount with
    | .ok a => (.ok a, 1)
    | .error e => (.error e, 1)
  | retryCount, fuel + 1 =>
    match attempt retryCount with
    | .ok a => (.ok a, 1)
    | .error e =>
        match calculateRetryDelay opts (retryCount + 1) e now with
        | none => (.error e, 1)
        | some _ =>
            let r := kyRetryGo opts now attempt (retryCount + 1) fuel
            (r.1, r.2 + 1)

/-- `method.toLowerCase()`, character by character. -/
def jsToLower (s : String) : String := ⟨s.data.map Char.toLower⟩

/-- The dispatch in `Ky.create`:
`isRetriableMethod ? ky._retry(function_) : function_()` — only methods in
the retryable-method set enter the retry loop at all. -/
def kyRun (opts : RetryOptions) (method : String) (now : Int)
    (attempt : Nat → Except KyFailure α) (fuel : Nat) :
    Except KyFailure α × Nat :=
  if jsToLower method ∈ opts.methods then kyRetryGo opts now attempt 0 fuel
  else (attempt 0, 1)

/-! Spec-side formulation for claim C2, written from the words of the spec
sentence: if the header value parses as a number, that value taken as
seconds-from-now (times 1000 ms), unless the resulting value reaches the
fixed epoch threshold, in which case it is treated as an absolute epoch
timestamp and now is subtracted; if the value does not parse as a number,
it is parsed as an HTTP-date and the delta from now is taken; the result is
clamped to the configured maximum wait (maxRetryAfter). -/

/-- Spec-side wait computation for claim C2 (see module comment above). -/
def specRetryAfterWait (h : RetryHeader) (now : Int)
    (maxRetryAfter : Option Int) : Int :=
  let w : Int :=
    match h.asNumber with
    | some n =>
        if n * 1000 ≥ epochThreshold then n * 1000 - now else n * 1000
    | none => h.asDate - now
  match maxRetryAfter with
  | some m => min w m
  | none => w

/-! ### Theorems on the retry core -/

/-- The delay computation refuses every timeout failure, whatever the
configuration and counter. -/
theorem calculateRetryDelay_timeout (opts : RetryOptions) (rc : Nat)
    (now : Int) : calculateRetryDelay opts rc .timeout now = none := by
  unfold calculateRetryDelay
  split <;> rfl

/-- The clamp `after < max ? after : max` with `max = m ?? after` agrees with
taking the minimum when a maximum is configured. -/
theorem clamp_getD_eq_min (a : Int) (m : Option Int) :
    (if a < m.getD a then a else m.getD a)
      = match m with | some x => min a x | none => a := by
  cases m with
  | none => simp
  | some x =>
    simp only [Option.getD, min_def]
    split_ifs <;> omega

/-- An attempt whose failure the delay computation refuses terminates the
retry loop at once, with a single request issued. -/
theorem kyRetryGo_terminal (opts : RetryOptions) (now : Int)
    (attempt : Nat → Except KyFailure α) (rc fuel : Nat) (e : KyFailure)
    (h : attempt rc = .error e)
    (hd : calculateRetryDelay opts (rc + 1) e now = none) :
    kyRetryGo opts now attempt rc fuel = (.error e, 1) := by
  cases fuel <;> simp [kyRetryGo, h, hd]

/-- Claim C1 counterexample: with the default retry configuration, an HTTP
413 failure whose response carries a Retry-After style header with value 1
is retried after a 1000 ms wait; a run whose first attempt fails this way
and whose second attempt succeeds issues two requests and returns the
success, so the 413 failure does not propagate immediately. -/
theorem C1_413_retried_counterexample :
    calculateRetryDelay defaultRetryOptions 1
        (.http 413 (some ⟨some 1, 0⟩)) 0 = some 1000 ∧
    kyRun defaultRetryOptions "get" 0
        (fun n => if n = 0 then .error (.http 413 (some ⟨some 1, 0⟩))
                  else .ok (7 : Nat)) 2
      = (.ok 7, 2) := by
  constructor
  · rfl
  · rfl

/-- Claim C1 (amended): an HTTP 413 failure whose response carries none of
the recognized Retry-After / rate-limit-reset headers is never retried,
regardless of the retry configuration and of the attempt counter: the
delay computation short-circuits to no retry and the failure propagates
immediately to the caller. -/
theorem C1_413_no_header_never_retried (opts : RetryOptions) (rc : Nat)
    (now : Int) :
    calculateRetryDelay opts rc (.http 413 none) now = none := by
  unfold calculateRetryDelay
  split
  · rfl
  · simp

/-- Claim C2: for a retried HTTP failure (counter within the limit) whose
status is in {413, 429, 503} and whose response carries a recognized
retry-hint header, the computed wait is exactly the spec formula: a numeric
header value taken as seconds-from-now times 1000 ms, unless it reaches the
fixed epoch threshold in which case now is subtracted from the absolute
epoch value; a non-numeric value parsed as an HTTP-date with the delta from
now; the result clamped to the configured maxRetryAfter. -/
theorem C2_retry_after_wait (limit : Nat) (methods : List String)
    (maxRA bl : Option Int) (delayFn : Nat → Int)
    (status rc : Nat) (h : RetryHeader) (now : Int)
    (hrc : rc ≤ limit) (hs : status ∈ [413, 429, 503]) :
    calculateRetryDelay
      { limit := limit, methods := methods,
        statusCodes := [408, 413, 429, 500, 502, 503, 504],
        afterStatusCodes := [413, 429, 503],
        maxRetryAfter := maxRA, backoffLimit := bl, delay := delayFn }
      rc (.http status (some h)) now
      = some (specRetryAfterWait h now maxRA) := by
  have hlim : ¬ rc > limit := by omega
  have hw : retryAfterWait
      { limit := limit, methods := methods,
        statusCodes := [408, 413, 429, 500, 502, 503, 504],
        afterStatusCodes := [413, 429, 503],
        maxRetryAfter := maxRA, backoffLimit := bl, delay := delayFn } h now
      = specRetryAfterWait h now maxRA := by
    unfold retryAfterWait specRetryAfterWait
    exact clamp_getD_eq_min _ maxRA
  fin_cases hs <;> simp [calculateRetryDelay, hlim, hw]

/-- Witness for C2 at a concrete input: status 429, counter 1 of limit 2,
header value the number 120, now 0, no configured maximum. -/
theorem C2_retry_after_wait_witness :
    calculateRetryDelay
      { limit := 2, methods := ["get"],
        statusCodes := [408, 413, 429, 500, 502, 503, 504],
        afterStatusCodes := [413, 429, 503],
        maxRetryAfter := none, backoffLimit := none,
        delay := fun n => 300 * 2 ^ (n - 1) }
      1 (.http 429 (some ⟨some 120, 0⟩)) 0
      = some (specRetryAfterWait ⟨some 120, 0⟩ 0 none) :=
  C2_retry_after_wait 2 ["get"] none none (fun n => 300 * 2 ^ (n - 1))
    429 1 ⟨some 120, 0⟩ 0 (by decide) (by decide)

/-- Claim C7: a timeout failure is never retried.  Whatever the retry
options (method set, status configuration, limit), the attempt counter and
the remaining fuel, a timeout on the current attempt terminates the retry
loop with exactly that one request issued, and a run whose first attempt
times out reports the timeout after exactly one request. -/
theorem C7_timeout_terminal (opts : RetryOptions) (method : String)
    (now : Int) (attempt : Nat → Except KyFailure α) (rc fuel : Nat)
    (h : attempt rc = .error .timeout) :
    kyRetryGo opts now attempt rc fuel = (.error .timeout, 1) ∧
    (attempt 0 = .error .timeout →
      kyRun opts method now attempt fuel = (.error .timeout, 1)) := by
  constructor
  · exact kyRetryGo_terminal opts now attempt rc fuel .timeout h
      (calculateRetryDelay_timeout opts (rc + 1) now)
  · intro h0
    unfold kyRun
    split
    · exact kyRetryGo_terminal opts now attempt 0 fuel .timeout h0
        (calculateRetryDelay_timeout opts 1 now)
    · rw [h0]

/-- Witness for C7: a request whose single simulated attempt times out. -/
theorem C7_timeout_terminal_witness :
    kyRun defaultRetryOptions "get" 0
        (fun _ => (.error .timeout : Except KyFailure Nat)) 5
      = (.error .timeout, 1) :=
  (C7_timeout_terminal defaultRetryOptions "get" 0
      (fun _ => (.error .timeout : Except KyFailure Nat)) 0 5 rfl).2 rfl

/-! ### The per-service error mappers (spiget.ts / modrinth.ts / hangar.ts,
method handleError) -/

/-- Spiget error codes.  The enum source file (types/spigetType.ts) is not
part of the provided sources; the members are modelled from their uses in
spiget.ts and mirror the ModrinthErrorCode enumeration. -/
inductive SpigetErrorCode where
  | RESOURCE_NOT_FOUND
  | INVALID_SEARCH_PARAMETERS
  | API_REQUEST_FAILED
  | NETWORK_ERROR
  | INVALID_RESPONSE
  | RATE_LIMIT_EXCEEDED
  | UNAUTHORIZED
  | INVALID_VERSION
  | DOWNLOAD_FAILED
  | EXTERNAL_FILE_DOWNLOAD
  deriving Repr, DecidableEq

/-- ModrinthErrorCode from types/modrinthType.ts. -/
inductive ModrinthErrorCode where
  | RESOURCE_NOT_FOUND
  | INVALID_SEARCH_PARAMETERS
  | API_REQUEST_FAILED
  | NETWORK_ERROR
  | INVALID_RESPONSE
  | RATE_LIMIT_EXCEEDED
  | UNAUTHORIZED
  | INVALID_VERSION
  | DOWNLOAD_FAILED
  | EXTERNAL_FILE_DOWNLOAD
  deriving Repr, DecidableEq

/-- HangarErrorCode from types/hangarType. -/
inductive HangarErrorCode where
  | API_REQUEST_FAILED
  | RESOURCE_NOT_FOUND
  | UNAUTHORIZED
  | RATE_LIMIT_EXCEEDED
  | INVALID_SEARCH_PARAMETERS
  | NETWORK_ERROR
  | DOWNLOAD_FAILED
  | VALIDATION_ERROR
  deriving Repr, DecidableEq

/-- The shape of the `error: any` value handleError inspects:
`status = some s` models a truthy `error.response` with
`error.response.status = s`; `name` and `code` model the corresponding
string properties (none when absent). -/
structure JsFailure where
  status : Option Nat
  name : Option String
  code : Option String
  deriving Repr, DecidableEq

/-- The transport-failure test shared by the three mappers:
`error.name === "NetworkError" || error.code === "ECONNRESET" ||
error.code === "ENOTFOUND"`. -/
def isNetworkError (e : JsFailure) : Bool :=
  e.name == some "NetworkError" || e.code == some "ECONNRESET"
    || e.code == some "ENOTFOUND"

/-- A thrown SpigetError, reduced to the fields claim C3 is about. -/
structure SpigetError where
  code : SpigetErrorCode
  message : String
  deriving Repr, DecidableEq

/-- A thrown ModrinthError, reduced to the fields claim C3 is about. -/
structure ModrinthError where
  code : ModrinthErrorCode
  message : String
  deriving Repr, DecidableEq

/-- A thrown HangarError, reduced to the fields claim C3 is about. -/
structure HangarError where
  code : HangarErrorCode
  message : String
  deriving Repr, DecidableEq

/-- SpigetAPI.handleError (spiget.ts): the value of the error it throws. -/
def spigetHandleError (e : JsFailure) (defaultCode : SpigetErrorCode)
    (defaultMessage : String) : SpigetError :=
  match e.status with
  | some status =>
      if status = 404 then ⟨.RESOURCE_NOT_FOUND, "Resource not found"⟩
      else if status = 401 then ⟨.UNAUTHORIZED, "Unauthorized access"⟩
      else if status = 429 then ⟨.RATE_LIMIT_EXCEEDED, "Rate limit exceeded"⟩
      else if 400 ≤ status ∧ status < 500 then
        ⟨.INVALID_SEARCH_PARAMETERS, "Invalid request parameters"⟩
      else if 500 ≤ status then ⟨.API_REQUEST_FAILED, "Server error"⟩
      else if isNetworkError e then ⟨.NETWORK_ERROR, "Network error occurred"⟩
      else ⟨defaultCode, defaultMessage⟩
  | none =>
      if isNetworkError e then ⟨.NETWORK_ERROR, "Network error occurred"⟩
      else ⟨defaultCode, defaultMessage⟩

/-- ModrinthAPI.handleError (modrinth.ts): the value of the error it throws. -/
def modrinthHandleError (e : JsFailure) (defaultCode : ModrinthErrorCode)
    (defaultMessage : String) : ModrinthError :=
  match e.status with
  | some status =>
      if status = 404 then ⟨.RESOURCE_NOT_FOUND, "Resource not found"⟩
      else if status = 401 then ⟨.UNAUTHORIZED, "Unauthorized access"⟩
      else if status = 429 then ⟨.RATE_LIMIT_EXCEEDED, "Rate limit exceeded"⟩
      else if 400 ≤ status ∧ status < 500 then
        ⟨.INVALID_SEARCH_PARAMETERS, "Invalid request parameters"⟩
      else if 500 ≤ status then ⟨.API_REQUEST_FAILED, "Server error"⟩
      else if isNetworkError e then ⟨.NETWORK_ERROR, "Network error occurred"⟩
      else ⟨defaultCode, defaultMessage⟩
  | none =>
      if isNetworkError e then ⟨.NETWORK_ERROR, "Network error occurred"⟩
      else ⟨defaultCode, defaultMessage⟩

/-- HangarAPI.handleError (hangar.ts): the value of the error it throws. -/
def hangarHandleError (e : JsFailure) (defaultCode : HangarErrorCode)
    (defaultMessage : String) : HangarError :=
  match e.status with
  | some status =>
      if status = 404 then ⟨.RESOURCE_NOT_FOUND, "Resource not found"⟩
      else if status = 401 ∨ status = 403 then
        ⟨.UNAUTHORIZED,
          "Unauthorized access - this endpoint may require authentication"⟩
      else if status = 429 then ⟨.RATE_LIMIT_EXCEEDED, "Rate limit exceeded"⟩
      else if status = 422 then
        ⟨.VALIDATION_ERROR, "Validation error - check your request parameters"⟩
      else if 400 ≤ status ∧ status < 500 then
        ⟨.INVALID_SEARCH_PARAMETERS, "Invalid request parameters"⟩
      else if 500 ≤ status then ⟨.API_REQUEST_FAILED, "Server error"⟩
      else if isNetworkError e then ⟨.NETWORK_ERROR, "Network error occurred"⟩
      else ⟨defaultCode, defaultMessage⟩
  | none =>
      if isNetworkError e then ⟨.NETWORK_ERROR, "Network error occurred"⟩
      else ⟨defaultCode, defaultMessage⟩

/-! Spec-side mapping table for claim C3 (amended form).  The kinds shared
by the three services, with `fallback` standing for the caller-supplied
default. -/

/-- Abstract row labels of the error-mapping table. -/
inductive MappedKind where
  | notFound
  | unauthorized
  | rateLimited
  | validation
  | invalidParams
  | apiFailed
  | network
  | fallback
  deriving Repr, DecidableEq

/-- Spec-side table, written from the claim (amended at the network row):
404 maps to RESOURCE_NOT_FOUND; 401 (and for Hangar 403) to UNAUTHORIZED;
429 to RATE_LIMIT_EXCEEDED; 422 (Hangar only) to VALIDATION_ERROR; every
other status in 400-499 to INVALID_SEARCH_PARAMETERS; every status in
500-599 to API_REQUEST_FAILED; a failure with name NetworkError or code
ECONNRESET or ENOTFOUND, when no status row applied, to NETWORK_ERROR;
anything else to the caller-supplied default kind and message. -/
def specMappedKind (hangar : Bool) (e : JsFailure) : MappedKind :=
  let statusKind : Option MappedKind :=
    match e.status with
    | some s =>
        if s = 404 then some .notFound
        else if s = 401 ∨ (hangar = true ∧ s = 403) then some .unauthorized
        else if s = 429 then some .rateLimited
        else if hangar = true ∧ s = 422 then some .validation
        else if 400 ≤ s ∧ s < 500 then some .invalidParams
        else if 500 ≤ s ∧ s ≤ 599 then some .apiFailed
        else none
    | none => none
  match statusKind with
  | some k => k
  | none => if isNetworkError e then .network else .fallback

/-- Interpretation of the table rows in the Spiget enumeration. -/
def SpigetErrorCode.ofMapped : MappedKind → SpigetErrorCode → SpigetErrorCode
  | .notFound, _ => .RESOURCE_NOT_FOUND
  | .unauthorized, _ => .UNAUTHORIZED
  | .rateLimited, _ => .RATE_LIMIT_EXCEEDED
  | .validation, d => d
  | .invalidParams, _ => .INVALID_SEARCH_PARAMETERS
  | .apiFailed, _ => .API_REQUEST_FAILED
  | .network, _ => .NETWORK_ERROR
  | .fallback, d => d

/-- Interpretation of the table rows in the Modrinth enumeration. -/
def ModrinthErrorCode.ofMapped : MappedKind → ModrinthErrorCode → ModrinthErrorCode
  | .notFound, _ => .RESOURCE_NOT_FOUND
  | .unauthorized, _ => .UNAUTHORIZED
  | .rateLimited, _ => .RATE_LIMIT_EXCEEDED
  | .validation, d => d
  | .invalidParams, _ => .INVALID_SEARCH_PARAMETERS
  | .apiFailed, _ => .API_REQUEST_FAILED
  | .network, _ => .NETWORK_ERROR
  | .fallback, d => d

/-- Interpretation of the table rows in the Hangar enumeration. -/
def HangarErrorCode.ofMapped : MappedKind → HangarErrorCode → HangarErrorCode
  | .notFound, _ => .RESOURCE_NOT_FOUND
  | .unauthorized, _ => .UNAUTHORIZED
  | .rateLimited, _ => .RATE_LIMIT_EXCEEDED
  | .validation, _ => .VALIDATION_ERROR
  | .invalidParams, _ => .INVALID_SEARCH_PARAMETERS
  | .apiFailed, _ => .API_REQUEST_FAILED
  | .network, _ => .NETWORK_ERROR
  | .fallback, d => d

/-- Claim C3 counterexample: a failure that carries a response whose status
matches no status rule (304) together with name NetworkError.  The claim
reserves NETWORK_ERROR for failures with no response and sends every other
input to the caller-supplied default kind and message, but the mapper
returns NETWORK_ERROR here, not the default. -/
theorem C3_mapper_counterexample :
    spigetHandleError ⟨some 304, some "NetworkError", none⟩
        .API_REQUEST_FAILED "fallback message"
      = ⟨.NETWORK_ERROR, "Network error occurred"⟩ ∧
    spigetHandleError ⟨some 304, some "NetworkError", none⟩
        .API_REQUEST_FAILED "fallback message"
      ≠ ⟨.API_REQUEST_FAILED, "fallback message"⟩ := by
  decide

/-- Claim C3 (amended): for every failure whose response status (when
present) is a valid HTTP status below 600, each of the three mappers
realizes the table: 404 to RESOURCE_NOT_FOUND; 401 (Hangar also 403) to
UNAUTHORIZED; 429 to RATE_LIMIT_EXCEEDED; 422 to VALIDATION_ERROR (Hangar
only); every other 400-499 to INVALID_SEARCH_PARAMETERS; 500-599 to
API_REQUEST_FAILED; a failure with name NetworkError or code ECONNRESET or
ENOTFOUND to NETWORK_ERROR when no status row applied; any other input to
the caller-supplied default kind and message.  The mappers are total
functions, hence deterministic. -/
theorem C3_mapper_table (e : JsFailure)
    (dc1 : SpigetErrorCode) (dm1 : String)
    (dc2 : ModrinthErrorCode) (dm2 : String)
    (dc3 : HangarErrorCode) (dm3 : String)
    (hs : ∀ s, e.status = some s → s < 600) :
    (spigetHandleError e dc1 dm1).code
        = SpigetErrorCode.ofMapped (specMappedKind false e) dc1 ∧
    (specMappedKind false e = .fallback →
        spigetHandleError e dc1 dm1 = ⟨dc1, dm1⟩) ∧
    (modrinthHandleError e dc2 dm2).code
        = ModrinthErrorCode.ofMapped (specMappedKind false e) dc2 ∧
    (specMappedKind false e = .fallback →
        modrinthHandleError e dc2 dm2 = ⟨dc2, dm2⟩) ∧
    (hangarHandleError e dc3 dm3).code
        = HangarErrorCode.ofMapped (specMappedKind true e) dc3 ∧
    (specMappedKind true e = .fallback →
        hangarHandleError e dc3 dm3 = ⟨dc3, dm3⟩) := by
  obtain ⟨st, nm, cd⟩ := e
  cases st with
  | none =>
      simp only [spigetHandleError, modrinthHandleError, hangarHandleError,
        specMappedKind]
      cases hnet : isNetworkError ⟨none, nm, cd⟩ <;>
        simp [hnet, SpigetErrorCode.ofMapped, ModrinthErrorCode.ofMapped,
          HangarErrorCode.ofMapped]
  | some s =>
      have h6 : s < 600 := hs s rfl
      refine ⟨?_, ?_, ?_, ?_, ?_, ?_⟩ <;>
        · simp only [spigetHandleError, modrinthHandleError,
            hangarHandleError, specMappedKind, SpigetErrorCode.ofMapped,
            ModrinthErrorCode.ofMapped, HangarErrorCode.ofMapped]
          simp only [Bool.false_eq_true, false_and, or_false, true_and,
            and_false, if_false]
          split_ifs <;>
            first
              | rfl
              | omega
              | (intro hcon; rfl)
              | (intro hcon; simp_all)

/-- Witness for C3 at concrete inputs: a 404 response, a Hangar 403, a
DNS-failure transport error, and a plain unknown error. -/
theorem C3_mapper_table_witness :
    (spigetHandleError ⟨some 404, none, none⟩ .API_REQUEST_FAILED "m").code
        = SpigetErrorCode.ofMapped
            (specMappedKind false ⟨some 404, none, none⟩) .API_REQUEST_FAILED ∧
    (hangarHandleError ⟨some 403, none, none⟩ .API_REQUEST_FAILED "m").code
        = HangarErrorCode.ofMapped
            (specMappedKind true ⟨some 403, none, none⟩) .API_REQUEST_FAILED ∧
    (modrinthHandleError ⟨none, none, some "ENOTFOUND"⟩
        .API_REQUEST_FAILED "m").code
        = ModrinthErrorCode.ofMapped
            (specMappedKind false ⟨none, none, some "ENOTFOUND"⟩)
            .API_REQUEST_FAILED ∧
    modrinthHandleError ⟨none, none, none⟩ .DOWNLOAD_FAILED "failed"
        = ⟨.DOWNLOAD_FAILED, "failed"⟩ :=
  ⟨(C3_mapper_table ⟨some 404, none, none⟩ .API_REQUEST_FAILED "m"
      .API_REQUEST_FAILED "m" .API_REQUEST_FAILED "m"
      (fun s h => by simp at h; omega)).1,
   (C3_mapper_table ⟨some 403, none, none⟩ .API_REQUEST_FAILED "m"
      .API_REQUEST_FAILED "m" .API_REQUEST_FAILED "m"
      (fun s h => by simp at h; omega)).2.2.2.2.1,
   (C3_mapper_table ⟨none, none, some "ENOTFOUND"⟩ .API_REQUEST_FAILED "m"
      .API_REQUEST_FAILED "m" .API_REQUEST_FAILED "m"
      (fun s h => by simp at h)).2.2.1,
   (C3_mapper_table ⟨none, none, none⟩ .API_REQUEST_FAILED "m"
      .DOWNLOAD_FAILED "failed" .API_REQUEST_FAILED "m"
      (fun s h => by simp at h)).2.2.2.1 (by decide)⟩

/-! ### The Modrinth facet model (types/modrinthType.ts) -/

/-- ModrinthFacetType: the enum member string values. -/
inductive ModrinthFacetType where
  | PROJECT_TYPE
  | CATEGORIES
  | VERSIONS
  | CLIENT_SIDE
  | SERVER_SIDE
  | OPEN_SOURCE
  | TITLE
  | AUTHOR
  | FOLLOWS
  | PROJECT_ID
  | LICENSE
  | DOWNLOADS
  | COLOR
  | CREATED_TIMESTAMP
  | MODIFIED_TIMESTAMP
  deriving Repr, DecidableEq

/-- The string value of each ModrinthFacetType member. -/
def ModrinthFacetType.value : ModrinthFacetType → String
  | .PROJECT_TYPE => "project_type"
  | .CATEGORIES => "categories"
  | .VERSIONS => "versions"
  | .CLIENT_SIDE => "client_side"
  | .SERVER_SIDE => "server_side"
  | .OPEN_SOURCE => "open_source"
  | .TITLE => "title"
  | .AUTHOR => "author"
  | .FOLLOWS => "follows"
  | .PROJECT_ID => "project_id"
  | .LICENSE => "license"
  | .DOWNLOADS => "downloads"
  | .COLOR => "color"
  | .CREATED_TIMESTAMP => "created_timestamp"
  | .MODIFIED_TIMESTAMP => "modified_timestamp"

/-- ModrinthFacetOperation: the enum member string values. -/
inductive ModrinthFacetOperation where
  | EQUAL
  | NOT_EQUAL
  | GREATER_THAN
  | GREATER_THAN_OR_EQUAL
  | LESS_THAN
  | LESS_THAN_OR_EQUAL
  deriving Repr, DecidableEq

/-- The string value of each ModrinthFacetOperation member. -/
def ModrinthFacetOperation.value : ModrinthFacetOperation → String
  | .EQUAL => ":"
  | .NOT_EQUAL => "!="
  | .GREATER_THAN => ">"
  | .GREATER_THAN_OR_EQUAL => ">="
  | .LESS_THAN => "<"
  | .LESS_THAN_OR_EQUAL => "<="

/-- A facet value: `string | number | boolean`.  Numbers are modelled as
integers (the facet fields carrying numbers — follows, downloads, color,
timestamps — are integral). -/
inductive FacetValue where
  | str (s : String)
  | num (n : Int)
  | bool (b : Bool)
  deriving Repr, DecidableEq

/-- JavaScript template-literal coercion of a facet value to a string. -/
def FacetValue.render : FacetValue → String
  | .str s => s
  | .num n => toString n
  | .bool b => if b then "true" else "false"

/-- ModrinthFacet: an immutable (type, operation, value) triple. -/
structure ModrinthFacet where
  type : ModrinthFacetType
  operation : ModrinthFacetOperation
  value : FacetValue
  deriving Repr, DecidableEq

/-- `ModrinthFacet.toString`: `` `${this.type}${this.operation}${this.value}` ``. -/
def ModrinthFacet.toString (f : ModrinthFacet) : String :=
  f.type.value ++ f.operation.value ++ f.value.render

/-- ModrinthFacetGroup: an ordered list of facets (OR semantics). -/
structure ModrinthFacetGroup where
  facets : List ModrinthFacet
  deriving Repr, DecidableEq

/-- `ModrinthFacetGroup.isEmpty`: `this.facets.length === 0`. -/
def ModrinthFacetGroup.isEmpty (g : ModrinthFacetGroup) : Bool :=
  g.facets.isEmpty

/-- `ModrinthFacetGroup.toArray`: `this.facets.map(facet => facet.toString())`. -/
def ModrinthFacetGroup.toArray (g : ModrinthFacetGroup) : List String :=
  g.facets.map ModrinthFacet.toString

/-- ModrinthFacetBuilder: an ordered list of groups (AND semantics). -/
structure ModrinthFacetBuilder where
  groups : List ModrinthFacetGroup
  deriving Repr, DecidableEq

/-- `ModrinthFacetBuilder.addGroup`: pushes the group unless it is empty
(an empty group is silently ignored). -/
def ModrinthFacetBuilder.addGroup (b : ModrinthFacetBuilder)
    (g : ModrinthFacetGroup) : ModrinthFacetBuilder :=
  if g.isEmpty then b else ⟨b.groups ++ [g]⟩

/-- `ModrinthFacetBuilder.addFacet`: wraps the facet in a singleton group
and pushes it unconditionally. -/
def ModrinthFacetBuilder.addFacet (b : ModrinthFacetBuilder)
    (f : ModrinthFacet) : ModrinthFacetBuilder :=
  ⟨b.groups ++ [⟨[f]⟩]⟩

/-! JSON.stringify for the facet wire format: arrays of arrays of strings,
serialized with no whitespace, strings escaped as JSON.stringify does
(quote, backslash, the named control escapes b t n f r, and u00XX for the
remaining control characters). -/

/-- Lowercase hex digit for a value below 16. -/
def hexDigitChar (n : Nat) : Char :=
  if n < 10 then Char.ofNat (48 + n) else Char.ofNat (87 + n)

/-- JSON.stringify escaping of one character. -/
def jsonEscapeChar (c : Char) : List Char :=
  if c = '"' then ['\\', '"']
  else if c = '\\' then ['\\', '\\']
  else if c = Char.ofNat 8 then ['\\', 'b']
  else if c = Char.ofNat 9 then ['\\', 't']
  else if c = Char.ofNat 10 then ['\\', 'n']
  else if c = Char.ofNat 12 then ['\\', 'f']
  else if c = Char.ofNat 13 then ['\\', 'r']
  else if c.toNat < 32 then
    ['\\', 'u', '0', '0', hexDigitChar (c.toNat / 16), hexDigitChar (c.toNat % 16)]
  else [c]

/-- The characters of the JSON string literal for `s`. -/
def jsonQuoteChars (s : String) : List Char :=
  '"' :: (s.data.map jsonEscapeChar).flatten ++ ['"']

/-- Comma-joined concatenation of serialized elements. -/
def joinComma (elems : List (List Char)) : List Char :=
  match elems with
  | [] => []
  | e :: es => e ++ (es.map (fun x => ',' :: x)).flatten

/-- The characters of a JSON array literal with the given serialized
elements. -/
def jsonArrayChars (elems : List (List Char)) : List Char :=
  '[' :: joinComma elems ++ [']']

/-- `JSON.stringify` of an array of strings. -/
def jsonArrayOfStrings (xs : List String) : String :=
  ⟨jsonArrayChars (xs.map jsonQuoteChars)⟩

/-- `JSON.stringify` of an array of arrays of strings. -/
def jsonArrayOfArrays (xss : List (List String)) : String :=
  ⟨jsonArrayChars (xss.map (fun xs => jsonArrayChars (xs.map jsonQuoteChars)))⟩

/-- `ModrinthFacetBuilder.build`: the empty string when no groups were
accumulated, otherwise `JSON.stringify(this.groups.map(g => g.toArray()))`. -/
def ModrinthFacetBuilder.build (b : ModrinthFacetBuilder) : String :=
  if b.groups.isEmpty then ""
  else jsonArrayOfArrays (b.groups.map ModrinthFacetGroup.toArray)

/-- The four shapes `ModrinthAPI.searchProjects` accepts for `facets`:
`string | ModrinthFacetBuilder | ModrinthFacetGroup | ModrinthFacet[]`. -/
inductive FacetsParam where
  | str (s : String)
  | builder (b : ModrinthFacetBuilder)
  | group (g : ModrinthFacetGroup)
  | list (fs : List ModrinthFacet)

/-- `ModrinthAPI.processFacets` (modrinth.ts): normalize the four accepted
shapes to the wire-format string. -/
def processFacets : FacetsParam → String
  | .str s => s
  | .builder b => b.build
  | .group g => jsonArrayOfArrays [g.toArray]
  | .list fs => jsonArrayOfArrays [fs.map ModrinthFacet.toString]

/-! ### Theorems on the facet model -/

/-- Appending only empty groups to a builder leaves it unchanged. -/
theorem foldl_addGroup_all_empty (gs : List ModrinthFacetGroup)
    (b : ModrinthFacetBuilder) (h : ∀ g ∈ gs, g.facets = []) :
    gs.foldl ModrinthFacetBuilder.addGroup b = b := by
  induction gs generalizing b with
  | nil => rfl
  | cons g t ih =>
      have hg : g.facets = [] := h g (by simp)
      have : ModrinthFacetBuilder.addGroup b g = b := by
        simp [ModrinthFacetBuilder.addGroup, ModrinthFacetGroup.isEmpty, hg]
      simp only [List.foldl, this]
      exact ih b (fun g' hg' => h g' (by simp [hg']))

/-- Appending only non-empty groups appends them all, in order. -/
theorem foldl_addGroup_all_nonempty (gs : List ModrinthFacetGroup)
    (b : ModrinthFacetBuilder) (h : ∀ g ∈ gs, g.facets ≠ []) :
    (gs.foldl ModrinthFacetBuilder.addGroup b).groups = b.groups ++ gs := by
  induction gs generalizing b with
  | nil => simp
  | cons g t ih =>
      have hg : g.facets ≠ [] := h g (by simp)
      have hadd : ModrinthFacetBuilder.addGroup b g = ⟨b.groups ++ [g]⟩ := by
        simp [ModrinthFacetBuilder.addGroup, ModrinthFacetGroup.isEmpty, hg]
      simp only [List.foldl, hadd]
      rw [ih ⟨b.groups ++ [g]⟩ (fun g' hg' => h g' (by simp [hg']))]
      simp

/-- Claim C4: for every non-empty facet list, the four accepted input
shapes carrying the same facets — the pre-built wire string, a builder to
which only the corresponding group was added, the single group, and the
flat facet list — are all normalized by processFacets to the identical
wire-format string. -/
theorem C4_processFacets_four_shapes (fs : List ModrinthFacet)
    (hne : fs ≠ []) :
    processFacets (.str (jsonArrayOfArrays [fs.map ModrinthFacet.toString]))
        = jsonArrayOfArrays [fs.map ModrinthFacet.toString] ∧
    processFacets (.group ⟨fs⟩)
        = jsonArrayOfArrays [fs.map ModrinthFacet.toString] ∧
    processFacets (.list fs)
        = jsonArrayOfArrays [fs.map ModrinthFacet.toString] ∧
    processFacets (.builder ((ModrinthFacetBuilder.mk []).addGroup ⟨fs⟩))
        = jsonArrayOfArrays [fs.map ModrinthFacet.toString] := by
  refine ⟨rfl, rfl, rfl, ?_⟩
  cases fs with
  | nil => exact absurd rfl hne
  | cons f t => rfl

/-- Witness for C4 at the facet list `[project_type:mod]`. -/
theorem C4_processFacets_four_shapes_witness :
    processFacets
        (.builder ((ModrinthFacetBuilder.mk []).addGroup
          ⟨[⟨.PROJECT_TYPE, .EQUAL, .str "mod"⟩]⟩))
      = jsonArrayOfArrays
          [[⟨.PROJECT_TYPE, .EQUAL, .str "mod"⟩].map ModrinthFacet.toString] :=
  (C4_processFacets_four_shapes [⟨.PROJECT_TYPE, .EQUAL, .str "mod"⟩]
    (by simp)).2.2.2

/-- Claim C8: build() on a builder to which zero groups were added, or to
which only empty groups were added (addGroup silently ignores an empty
group), returns exactly the empty string and not the string containing an
empty JSON array. -/
theorem C8_build_empty (gs : List ModrinthFacetGroup)
    (h : ∀ g ∈ gs, g.facets = []) :
    (gs.foldl ModrinthFacetBuilder.addGroup ⟨[]⟩).build = "" ∧
    (gs.foldl ModrinthFacetBuilder.addGroup ⟨[]⟩).build ≠ "[]" := by
  rw [foldl_addGroup_all_empty gs ⟨[]⟩ h]
  exact ⟨rfl, by decide⟩

/-- Witness for C8: a builder given one empty group (and none at all). -/
theorem C8_build_empty_witness :
    (([⟨[]⟩] : List ModrinthFacetGroup).foldl
        ModrinthFacetBuilder.addGroup ⟨[]⟩).build = "" :=
  (C8_build_empty [⟨[]⟩] (by simp)).1

/-! ### A JSON parser for the facet wire sublanguage

Canonical (whitespace-free, as JSON.stringify emits) JSON arrays of arrays
of JSON strings.  Used to state that build() output parses back to the
expected nested array. -/

/-- Value of one hex digit character, lowercase or uppercase. -/
def hexVal (c : Char) : Option Nat :=
  if 48 ≤ c.toNat ∧ c.toNat ≤ 57 then some (c.toNat - 48)
  else if 97 ≤ c.toNat ∧ c.toNat ≤ 102 then some (c.toNat - 87)
  else if 65 ≤ c.toNat ∧ c.toNat ≤ 70 then some (c.toNat - 55)
  else none

/-- Parse the body of a JSON string literal (after the opening quote) up to
and including the closing quote; returns the decoded characters and the
remaining input.  Unescaped control characters, bad escapes, and escaped
code points that are not Unicode scalar values are rejected. -/
def parseStringBody : List Char → Option (List Char × List Char)
  | [] => none
  | c :: rest =>
    if c = '"' then some ([], rest)
    else if c = '\\' then
      match rest with
      | [] => none
      | e :: rest' =>
        if e = '"' then (parseStringBody rest').map fun p => ('"' :: p.1, p.2)
        else if e = '\\' then
          (parseStringBody rest').map fun p => ('\\' :: p.1, p.2)
        else if e = '/' then
          (parseStringBody rest').map fun p => ('/' :: p.1, p.2)
        else if e = 'b' then
          (parseStringBody rest').map fun p => (Char.ofNat 8 :: p.1, p.2)
        else if e = 't' then
          (parseStringBody rest').map fun p => (Char.ofNat 9 :: p.1, p.2)
        else if e = 'n' then
          (parseStringBody rest').map fun p => (Char.ofNat 10 :: p.1, p.2)
        else if e = 'f' then
          (parseStringBody rest').map fun p => (Char.ofNat 12 :: p.1, p.2)
        else if e = 'r' then
          (parseStringBody rest').map fun p => (Char.ofNat 13 :: p.1, p.2)
        else if e = 'u' then
          match rest' with
          | h1 :: h2 :: h3 :: h4 :: rest'' =>
            match hexVal h1, hexVal h2, hexVal h3, hexVal h4 with
            | some a, some b, some c', some d =>
                let n := ((a * 16 + b) * 16 + c') * 16 + d
                if n.isValidChar then
                  (parseStringBody rest'').map fun p => (Char.ofNat n :: p.1, p.2)
                else none
            | _, _, _, _ => none
          | _ => none
        else none
    else if c.toNat < 32 then none
    else (parseStringBody rest).map fun p => (c :: p.1, p.2)

/-- Parse a JSON string literal (expects the opening quote). -/
def parseJsonString : List Char → Option (String × List Char)
  | '"' :: rest => (parseStringBody rest).map fun p => (⟨p.1⟩, p.2)
  | _ => none

/-- Parse the continuation of a non-empty JSON array of strings: either the
closing bracket or a comma followed by the next string element. -/
def parseStringsTail : Nat → List Char → Option (List String × List Char)
  | _, ']' :: r => some ([], r)
  | fuel + 1, ',' :: r =>
    match parseJsonString r with
    | some (x, r') => (parseStringsTail fuel r').map fun p => (x :: p.1, p.2)
    | none => none
  | _, _ => none

/-- Parse a JSON array of strings (expects the opening bracket). -/
def parseStringsArray : List Char → Option (List String × List Char)
  | '[' :: r =>
    match r with
    | ']' :: r' => some ([], r')
    | _ =>
      match parseJsonString r with
      | some (x, r') =>
          (parseStringsTail r'.length r').map fun p => (x :: p.1, p.2)
      | none => none
  | _ => none

/-- Parse the continuation of a non-empty JSON array of arrays of strings. -/
def parseArraysTail : Nat → List Char → Option (List (List String) × List Char)
  | _, ']' :: r => some ([], r)
  | fuel + 1, ',' :: r =>
    match parseStringsArray r with
    | some (x, r') => (parseArraysTail fuel r').map fun p => (x :: p.1, p.2)
    | none => none
  | _, _ => none

/-- `JSON.parse` for the facet wire format: a complete input holding one
JSON array of arrays of strings. -/
def parseFacetsJson (s : String) : Option (List (List String)) :=
  match s.data with
  | '[' :: r =>
    match r with
    | ']' :: r' => if r' = [] then some [] else none
    | _ =>
      match parseStringsArray r with
      | some (x, r') =>
        match parseArraysTail r'.length r' with
        | some (xs, r'') => if r'' = [] then some (x :: xs) else none
        | none => none
      | none => none
  | _ => none

/-! ### Roundtrip: the parser recovers what the serializer produced -/

/-- hexVal decodes the digits hexDigitChar emits. -/
theorem hexVal_hexDigitChar (d : Nat) (hd : d < 16) :
    hexVal (hexDigitChar d) = some d := by
  interval_cases d <;> rfl

/-- Parsing one escaped character prepends it to whatever the rest parses
to. -/
theorem parseStringBody_escapeChar (c : Char) (t : List Char) :
    parseStringBody (jsonEscapeChar c ++ t)
      = (parseStringBody t).map fun p => (c :: p.1, p.2) := by
  by_cases h1 : c = '"'
  · subst h1
    rw [show jsonEscapeChar '"' = ['\\', '"'] from rfl,
      parseStringBody.eq_def]
    simp
  by_cases h2 : c = '\\'
  · subst h2
    rw [show jsonEscapeChar '\\' = ['\\', '\\'] from rfl,
      parseStringBody.eq_def]
    simp
  by_cases h3 : c = Char.ofNat 8
  · subst h3
    rw [show jsonEscapeChar (Char.ofNat 8) = ['\\', 'b'] from rfl,
      parseStringBody.eq_def]
    simp
  by_cases h4 : c = Char.ofNat 9
  · subst h4
    rw [show jsonEscapeChar (Char.ofNat 9) = ['\\', 't'] from rfl,
      parseStringBody.eq_def]
    simp
  by_cases h5 : c = Char.ofNat 10
  · subst h5
    rw [show jsonEscapeChar (Char.ofNat 10) = ['\\', 'n'] from rfl,
      parseStringBody.eq_def]
    simp
  by_cases h6 : c = Char.ofNat 12
  · subst h6
    rw [show jsonEscapeChar (Char.ofNat 12) = ['\\', 'f'] from rfl,
      parseStringBody.eq_def]
    simp
  by_cases h7 : c = Char.ofNat 13
  · subst h7
    rw [show jsonEscapeChar (Char.ofNat 13) = ['\\', 'r'] from rfl,
      parseStringBody.eq_def]
    simp
  by_cases h8 : c.toNat < 32
  · have hesc : jsonEscapeChar c
        = ['\\', 'u', '0', '0',
            hexDigitChar (c.toNat / 16), hexDigitChar (c.toNat % 16)] := by
      simp [jsonEscapeChar, h1, h2, h3, h4, h5, h6, h7, h8]
    rw [hesc]
    have hdiv : c.toNat / 16 < 16 := by omega
    have hmod : c.toNat % 16 < 16 := by omega
    rw [parseStringBody.eq_def]
    simp only [List.cons_append, List.nil_append]
    simp only [hexVal_hexDigitChar _ hdiv, hexVal_hexDigitChar _ hmod,
      show hexVal (Char.ofNat 48) = some 0 from rfl]
    have hvalid : Nat.isValidChar (c.toNat / 16 * 16 + c.toNat % 16) :=
      Or.inl (by omega)
    have hchar : Char.ofNat (c.toNat / 16 * 16 + c.toNat % 16) = c := by
      rw [show c.toNat / 16 * 16 + c.toNat % 16 = c.toNat from by omega]
      exact Char.ofNat_toNat c
    simp [hvalid, hchar]
  · have hesc : jsonEscapeChar c = [c] := by
      simp [jsonEscapeChar, h1, h2, h3, h4, h5, h6, h7, h8]
    rw [hesc]
    rw [parseStringBody.eq_def]
    simp [h1, h2, h8]

/-- Parsing an escaped character sequence followed by the closing quote
recovers the original characters. -/
theorem parseStringBody_escape (cs : List Char) (rest : List Char) :
    parseStringBody ((cs.map jsonEscapeChar).flatten ++ '"' :: rest)
      = some (cs, rest) := by
  induction cs with
  | nil =>
      simp only [List.map_nil, List.flatten_nil, List.nil_append]
      rw [parseStringBody.eq_def]
      simp
  | cons c cs ih =>
      simp only [List.map_cons, List.flatten_cons, List.append_assoc]
      rw [parseStringBody_escapeChar, ih]
      rfl

/-- Parsing a serialized JSON string literal recovers the string. -/
theorem parseJsonString_quote (x : String) (r : List Char) :
    parseJsonString (jsonQuoteChars x ++ r) = some (x, r) := by
  show parseJsonString ('"' :: ((x.data.map jsonEscapeChar).flatten ++ ['"']) ++ r)
      = some (x, r)
  simp only [List.cons_append, List.append_assoc, List.singleton_append]
  simp only [parseJsonString, parseStringBody_escape, Option.map_some]
  rfl

/-- Each comma-prefixed element contributes at least one character. -/
theorem comma_flatten_length_ge {β : Type} (f : β → List Char)
    (es : List β) :
    es.length ≤ ((es.map (fun x => ',' :: f x)).flatten).length := by
  induction es with
  | nil => simp
  | cons e es ih =>
      simp only [List.map_cons, List.flatten_cons, List.length_append,
        List.length_cons]
      omega

/-- Parsing the serialized tail of a non-empty string array recovers the
remaining elements. -/
theorem parseStringsTail_round (es : List String) (r : List Char)
    (fuel : Nat) (hf : es.length ≤ fuel) :
    parseStringsTail fuel
        ((es.map (fun x => ',' :: jsonQuoteChars x)).flatten ++ ']' :: r)
      = some (es, r) := by
  induction es generalizing fuel r with
  | nil => simp [parseStringsTail]
  | cons x es ih =>
      cases fuel with
      | zero => simp at hf
      | succ f =>
          simp only [List.map_cons, List.flatten_cons, List.cons_append,
            List.append_assoc]
          simp only [parseStringsTail, parseJsonString_quote]
          rw [ih r f (by simpa using Nat.le_of_succ_le_succ hf)]
          rfl

/-- Parsing a serialized JSON array of strings recovers the list. -/
theorem parseStringsArray_round (xs : List String) (r : List Char) :
    parseStringsArray (jsonArrayChars (xs.map jsonQuoteChars) ++ r)
      = some (xs, r) := by
  cases xs with
  | nil => rfl
  | cons x es =>
      have hbody : jsonArrayChars ((x :: es).map jsonQuoteChars) ++ r
          = '[' :: '"' :: ((x.data.map jsonEscapeChar).flatten
              ++ '"' :: ((es.map (fun s => ',' :: jsonQuoteChars s)).flatten
                ++ ']' :: r)) := by
        simp [jsonArrayChars, joinComma, jsonQuoteChars, List.map_map,
          Function.comp_def]
      rw [hbody]
      have hq := parseStringBody_escape x.data
        ((es.map (fun s => ',' :: jsonQuoteChars s)).flatten ++ ']' :: r)
      have hfuel : es.length
          ≤ ((es.map (fun s => ',' :: jsonQuoteChars s)).flatten
              ++ ']' :: r).length :=
        le_trans (comma_flatten_length_ge jsonQuoteChars es) (by simp)
      simp [parseStringsArray, parseJsonString, hq]
      refine parseStringsTail_round es r _ ?_
      have hlen := comma_flatten_length_ge jsonQuoteChars es
      simp [List.length_flatten, List.map_map] at hlen
      omega

/-- Parsing the serialized tail of a non-empty array of string arrays
recovers the remaining elements. -/
theorem parseArraysTail_round (es : List (List String)) (r : List Char)
    (fuel : Nat) (hf : es.length ≤ fuel) :
    parseArraysTail fuel
        ((es.map (fun xs => ',' :: jsonArrayChars (xs.map jsonQuoteChars))).flatten
          ++ ']' :: r)
      = some (es, r) := by
  induction es generalizing fuel r with
  | nil => simp [parseArraysTail]
  | cons x es ih =>
      cases fuel with
      | zero => simp at hf
      | succ f =>
          simp only [List.map_cons, List.flatten_cons, List.cons_append,
            List.append_assoc]
          simp only [parseArraysTail, parseStringsArray_round]
          rw [ih r f (by simpa using Nat.le_of_succ_le_succ hf)]
          rfl

/-- Parsing the full serialized array of arrays recovers the nested list. -/
theorem parseFacetsJson_round (xss : List (List String)) :
    parseFacetsJson (jsonArrayOfArrays xss) = some xss := by
  cases xss with
  | nil => rfl
  | cons x rest =>
      have hdata : (jsonArrayOfArrays (x :: rest)).data
          = '[' :: '[' :: (joinComma (x.map jsonQuoteChars)
              ++ ']' :: ((rest.map (fun xs =>
                  ',' :: jsonArrayChars (xs.map jsonQuoteChars))).flatten
                ++ ']' :: [])) := by
        simp [jsonArrayOfArrays, jsonArrayChars, joinComma, List.map_map,
          Function.comp_def, List.append_assoc]
      have harr : parseStringsArray ('[' :: (joinComma (x.map jsonQuoteChars)
            ++ ']' :: ((rest.map (fun xs =>
                ',' :: jsonArrayChars (xs.map jsonQuoteChars))).flatten
              ++ ']' :: [])))
          = some (x, (rest.map (fun xs =>
                ',' :: jsonArrayChars (xs.map jsonQuoteChars))).flatten
              ++ ']' :: []) := by
        have := parseStringsArray_round x
          ((rest.map (fun xs =>
              ',' :: jsonArrayChars (xs.map jsonQuoteChars))).flatten
            ++ ']' :: [])
        simpa [jsonArrayChars, List.append_assoc] using this
      simp only [parseFacetsJson, hdata, harr]
      have hb : rest.length
          ≤ ((rest.map (fun xs =>
              ',' :: jsonArrayChars (xs.map jsonQuoteChars))).flatten
            ++ ']' :: []).length :=
        le_trans
          (comma_flatten_length_ge
            (fun xs => jsonArrayChars (xs.map jsonQuoteChars)) rest)
          (by simp)
      rw [parseArraysTail_round rest [] _ hb]
      simp

/-- Claim C5: for every non-empty sequence of non-empty facet groups added
to a builder, build() returns a JSON string that parses back into exactly
one inner array per group, in insertion order, each holding the toString
forms of that group's facets in insertion order. -/
theorem C5_build_roundtrip (gs : List ModrinthFacetGroup) (h1 : gs ≠ [])
    (h2 : ∀ g ∈ gs, g.facets ≠ []) :
    parseFacetsJson ((gs.foldl ModrinthFacetBuilder.addGroup ⟨[]⟩).build)
      = some (gs.map ModrinthFacetGroup.toArray) := by
  have hgroups : (gs.foldl ModrinthFacetBuilder.addGroup ⟨[]⟩).groups = gs := by
    simpa using foldl_addGroup_all_nonempty gs ⟨[]⟩ h2
  rw [show (gs.foldl ModrinthFacetBuilder.addGroup ⟨[]⟩).build
      = jsonArrayOfArrays (gs.map ModrinthFacetGroup.toArray) from by
    simp [ModrinthFacetBuilder.build, hgroups, List.isEmpty_iff, h1]]
  exact parseFacetsJson_round (gs.map ModrinthFacetGroup.toArray)

/-- Witness for C5 at two concrete groups: two version facets and one
project-type facet. -/
theorem C5_build_roundtrip_witness :
    parseFacetsJson
        ((([⟨[⟨.VERSIONS, .EQUAL, .str "1.20.1"⟩,
              ⟨.VERSIONS, .EQUAL, .str "1.19.4"⟩]⟩,
            ⟨[⟨.PROJECT_TYPE, .EQUAL, .str "mod"⟩]⟩]
            : List ModrinthFacetGroup).foldl
            ModrinthFacetBuilder.addGroup ⟨[]⟩).build)
      = some (([⟨[⟨.VERSIONS, .EQUAL, .str "1.20.1"⟩,
              ⟨.VERSIONS, .EQUAL, .str "1.19.4"⟩]⟩,
            ⟨[⟨.PROJECT_TYPE, .EQUAL, .str "mod"⟩]⟩]
            : List ModrinthFacetGroup).map ModrinthFacetGroup.toArray) :=
  C5_build_roundtrip _ (by simp) (by simp)

/-! ### SpigetAPI.downloadResource (spiget.ts) -/

/-- The `file` part of a fetched Spiget resource that downloadResource
inspects. -/
structure SpigetFile where
  externalUrl : Option String
  deriving Repr, DecidableEq

/-- The part of a fetched Spiget resource that downloadResource inspects. -/
structure SpigetResourceMeta where
  external : Bool
  file : SpigetFile
  deriving Repr, DecidableEq

/-- The outcome of downloadResource after the metadata fetch: either a
thrown SpigetError (with its context fields) or a raw request to the given
URL. -/
inductive SpigetDownloadOutcome where
  | thrown (code : SpigetErrorCode) (message : String)
      (resourceId : Nat) (externalUrl : Option String)
  | request (url : String)
  deriving Repr, DecidableEq

/-- `SpigetAPI.downloadResource` after `getResource` returned `resource`:
throw EXTERNAL_FILE_DOWNLOAD when the resource is external, otherwise issue
the raw download request. -/
def downloadResource (baseUrl : String) (resourceId : Nat)
    (resource : SpigetResourceMeta) : SpigetDownloadOutcome :=
  if resource.external then
    .thrown .EXTERNAL_FILE_DOWNLOAD
      (s!"Cannot download external resource {resourceId}. Use externalUrl instead.")
      resourceId resource.file.externalUrl
  else
    .request (s!"{baseUrl}/resources/{resourceId}/download")

/-- Claim C9: for every resource whose metadata has external = true,
downloadResource throws a SpigetError of kind EXTERNAL_FILE_DOWNLOAD
carrying the resource id and its externalUrl as context, and issues no
request to the download endpoint. -/
theorem C9_external_download (baseUrl : String) (resourceId : Nat)
    (resource : SpigetResourceMeta) (h : resource.external = true) :
    downloadResource baseUrl resourceId resource
      = .thrown .EXTERNAL_FILE_DOWNLOAD
          (s!"Cannot download external resource {resourceId}. Use externalUrl instead.")
          resourceId resource.file.externalUrl ∧
    ∀ url, downloadResource baseUrl resourceId resource ≠ .request url := by
  refine ⟨by simp [downloadResource, h], fun url => by simp [downloadResource, h]⟩

/-- Witness for C9 at a concrete external resource. -/
theorem C9_external_download_witness :
    downloadResource "https://api.spiget.org/v2" 28140
        ⟨true, ⟨some "https://example.com/plugin.jar"⟩⟩
      = .thrown .EXTERNAL_FILE_DOWNLOAD
          "Cannot download external resource 28140. Use externalUrl instead."
          28140 (some "https://example.com/plugin.jar") :=
  (C9_external_download "https://api.spiget.org/v2" 28140
    ⟨true, ⟨some "https://example.com/plugin.jar"⟩⟩ rfl).1

/-! ### Client construction and the per-attempt timeout (hangar.ts,
baseClient, ky) -/

/-- HangarAPIOptions from types/hangarType: `{baseUrl?, userAgent?,
timeout?}`. -/
structure HangarAPIOptions where
  baseUrl : Option String
  userAgent : Option String
  timeout : Option Int
  deriving Repr, DecidableEq

/-- The state BaseAPIClient stores: its constructor takes only
`(baseUrl, userAgent?)`. -/
structure BaseAPIClientState where
  baseUrl : String
  userAgent : String
  deriving Repr, DecidableEq

/-- JavaScript `v || d` on an optional string: the default is used when the
value is absent or the empty string. -/
def jsOrDefault (v : Option String) (d : String) : String :=
  match v with
  | some s => if s == "" then d else s
  | none => d

/-- The HangarAPI constructor: `super(options.baseUrl || default,
options.userAgent || "shulkers/1.0.0")`.  Nothing else of `options` is
used. -/
def hangarConstruct (o : HangarAPIOptions) : BaseAPIClientState where
  baseUrl := jsOrDefault o.baseUrl "https://hangar.papermc.io/api/v1"
  userAgent := jsOrDefault o.userAgent "shulkers/1.0.0"

/-- The ky options BaseAPIClient.makeRequest passes: `{searchParams,
headers}` only — restricted here to the timeout-relevant part: no timeout
option is passed. -/
structure KyCallOptions where
  timeout : Option Int
  deriving Repr, DecidableEq

/-- The options `makeRequest` passes to `ky.get` contain no timeout,
whatever the stored client state. -/
def makeRequestOptions (_state : BaseAPIClientState) : KyCallOptions where
  timeout := none

/-- The Ky constructor: `timeout: options.timeout ?? 1e4` — the timeout
governing each single attempt. -/
def kyEffectiveTimeout (o : KyCallOptions) : Int :=
  o.timeout.getD 10000

/-- Claim C6 (code evaluation): for every construction-time options record
— in particular one supplying a timeout — each request attempt issued
through makeRequest is governed by the ky default of 10000 ms: the
HangarAPI constructor discards options.timeout and BaseAPIClient never
passes a timeout to ky. -/
theorem C6_timeout_option_discarded (o : HangarAPIOptions) :
    kyEffectiveTimeout (makeRequestOptions (hangarConstruct o)) = 10000 :=
  rfl

/-! ### HangarAPI.searchProjects (hangar.ts) -/

/-- HangarProjectSearchOptions restricted to the fields searchProjects
reads.  `category` and `platform` accept a single value or an array. -/
structure HangarProjectSearchOptions where
  q : Option String
  owner : Option String
  sort : Option String
  limit : Option Int
  offset : Option Int
  category : Option (String ⊕ List String)
  platform : Option (String ⊕ List String)
  deriving Repr, DecidableEq

/-- The params record searchProjects sends (absent key = `none`). -/
structure HangarSearchParams where
  q : Option String
  owner : Option String
  sort : Option String
  limit : Option Int
  offset : Option Int
  category : Option (List String)
  platform : Option (List String)
  deriving Repr, DecidableEq

/-- JavaScript truthiness of an optional string: absent and empty are
falsy. -/
def jsTruthyStr : Option String → Bool
  | none => false
  | some s => !(s == "")

/-- The `if (options.category) { ... }` normalization: a truthy single
value is wrapped into a one-element array, an array is forwarded as is
(arrays are always truthy), an absent or empty-string value is omitted. -/
def singleOrList : Option (String ⊕ List String) → Option (List String)
  | none => none
  | some (.inl s) => if s == "" then none else some [s]
  | some (.inr l) => some l

/-- `HangarAPI.searchProjects`: the params object built from the options.
`q`, `owner`, `sort` are set when truthy; `limit` is set to
`Math.min(limit, 25)` when defined; `offset` is set when defined;
`category` and `platform` are normalized to arrays when truthy. -/
def searchProjectsParams (o : HangarProjectSearchOptions) :
    HangarSearchParams where
  q := if jsTruthyStr o.q then o.q else none
  owner := if jsTruthyStr o.owner then o.owner else none
  sort := if jsTruthyStr o.sort then o.sort else none
  limit := o.limit.map (fun l => min l 25)
  offset := o.offset
  category := singleOrList o.category
  platform := singleOrList o.platform

/-- Claim C10 counterexample: with options `{q: "", limit: 30}` the limit
is clamped to 25 but the supplied q is dropped, not forwarded — JavaScript
truthiness discards supplied-but-empty string options, contradicting the
claim that all other supplied options are forwarded. -/
theorem C10_counterexample :
    (searchProjectsParams ⟨some "", none, none, some 30, none, none, none⟩).limit
        = some 25 ∧
    (searchProjectsParams ⟨some "", none, none, some 30, none, none, none⟩).q
        = none ∧
    (searchProjectsParams ⟨some "", none, none, some 30, none, none, none⟩).q
        ≠ some "" := by
  refine ⟨rfl, rfl, by decide⟩

/-- Claim C10 (amended): a supplied limit is sent as min(limit, 25) — any
value above 25 is silently clamped to 25 rather than rejected or passed
through; offset is forwarded whenever defined; q, owner and sort are
forwarded when supplied and non-empty (JavaScript-truthy); category and
platform are forwarded when truthy, a single value being wrapped into a
one-element array and an array passed through. -/
theorem C10_searchProjects_params (o : HangarProjectSearchOptions) :
    (∀ l, o.limit = some l →
      (searchProjectsParams o).limit = some (min l 25)) ∧
    (∀ l, o.limit = some l → 25 < l →
      (searchProjectsParams o).limit = some 25) ∧
    (o.limit = none → (searchProjectsParams o).limit = none) ∧
    (∀ s, o.q = some s → s ≠ "" → (searchProjectsParams o).q = some s) ∧
    (∀ s, o.owner = some s → s ≠ "" →
      (searchProjectsParams o).owner = some s) ∧
    (∀ s, o.sort = some s → s ≠ "" →
      (searchProjectsParams o).sort = some s) ∧
    (searchProjectsParams o).offset = o.offset ∧
    (∀ s, o.category = some (.inl s) → s ≠ "" →
      (searchProjectsParams o).category = some [s]) ∧
    (∀ l, o.category = some (.inr l) →
      (searchProjectsParams o).category = some l) ∧
    (∀ s, o.platform = some (.inl s) → s ≠ "" →
      (searchProjectsParams o).platform = some [s]) ∧
    (∀ l, o.platform = some (.inr l) →
      (searchProjectsParams o).platform = some l) := by
  obtain ⟨q, ow, so, li, off, cat, plat⟩ := o
  refine ⟨?_, ?_, ?_, ?_, ?_, ?_, ?_, ?_, ?_, ?_, ?_⟩
  · intro l hl; subst hl; simp [searchProjectsParams]
  · intro l hl h25; subst hl
    simp [searchProjectsParams, min_eq_right (le_of_lt h25)]
  · intro hl; subst hl; simp [searchProjectsParams]
  · intro s hs hne; subst hs; simp [searchProjectsParams, jsTruthyStr, hne]
  · intro s hs hne; subst hs; simp [searchProjectsParams, jsTruthyStr, hne]
  · intro s hs hne; subst hs; simp [searchProjectsParams, jsTruthyStr, hne]
  · simp [searchProjectsParams]
  · intro s hs hne; subst hs; simp [searchProjectsParams, singleOrList, hne]
  · intro l hl; subst hl; simp [searchProjectsParams, singleOrList]
  · intro s hs hne; subst hs; simp [searchProjectsParams, singleOrList, hne]
  · intro l hl; subst hl; simp [searchProjectsParams, singleOrList]

/-- Witness for C10 at concrete options: query, limit 30, one category. -/
theorem C10_searchProjects_params_witness :
    (searchProjectsParams ⟨some "worldedit", none, none, some 30, none,
        some (.inl "economy"), none⟩).limit = some (min 30 25) ∧
    (searchProjectsParams ⟨some "worldedit", none, none, some 30, none,
        some (.inl "economy"), none⟩).q = some "worldedit" ∧
    (searchProjectsParams ⟨some "worldedit", none, none, some 30, none,
        some (.inl "economy"), none⟩).category = some ["economy"] :=
  ⟨(C10_searchProjects_params _).1 30 rfl,
   (C10_searchProjects_params _).2.2.2.1 "worldedit" rfl (by decide),
   (C10_searchProjects_params _).2.2.2.2.2.2.2.1 "economy" rfl (by decide)⟩

end ApiFetcher
